import Mathlib

/-!
Verification of the FinnovateMerchantShield risk-analysis pipeline
(`src/merchant-shield-api/app/app.py`, endpoint `analyze_risk`).

The Flask handler composes an access gate (`require_api_key`), a JSON body
check, a payload validator (`validate_payload`), model inference
(`model.predict_proba`), response construction (rounding to 4 decimals and
the `flagged` threshold), and a fire-and-forget audit dispatch
(`threading.Thread(target=log_request, ...)`).  Modules `auth.py`,
`validation.py` and `db_utils.py` are imported by `app.py` but are not part
of the source tree, so those collaborators are modelled from the design
spec; the orchestration in `analyze_risk` itself is embedded directly from
`app.py`.

Probabilities and numeric feature values are modelled as rationals; Python's
`round(x, 4)` is modelled as round-half-to-even at 4 decimal places.
-/

namespace MerchantShield

/-- Decidable equality of `Except` results, needed to evaluate validation
outcomes on concrete inputs. -/
instance {ε α : Type} [DecidableEq ε] [DecidableEq α] : DecidableEq (Except ε α) :=
  fun a b =>
    match a, b with
    | .ok x, .ok y =>
        if h : x = y then .isTrue (by rw [h]) else .isFalse (by simp [h])
    | .error x, .error y =>
        if h : x = y then .isTrue (by rw [h]) else .isFalse (by simp [h])
    | .ok _, .error _ => .isFalse (by simp)
    | .error _, .ok _ => .isFalse (by simp)

/-- A JSON scalar value as it can appear as a feature value in the request
body: a number, a string, a boolean, or null. -/
inductive JsonVal where
  | num (q : ℚ)
  | str (s : String)
  | bool (b : Bool)
  | null
  deriving DecidableEq, Repr

/-- Parse a list of characters as a natural number written in decimal
digits; fails on an empty list or any non-digit character. -/
def parseDigits (l : List Char) : Option ℕ :=
  if l.isEmpty then none
  else l.foldlM (fun n c => if c.isDigit then some (10 * n + (c.toNat - 48)) else none) 0

/-- Parse an unsigned decimal numeral, with an optional single fractional
part after a dot, from a list of characters. -/
def parseNumTail (cs : List Char) : Option ℚ :=
  let intPart := cs.takeWhile (fun c => c != '.')
  match cs.dropWhile (fun c => c != '.') with
  | [] => (parseDigits intPart).map (fun n => (n : ℚ))
  | _ :: frac =>
      if frac.any (fun c => c == '.') then none
      else
        match parseDigits intPart, parseDigits frac with
        | some i, some f => some ((i : ℚ) + (f : ℚ) / (10 : ℚ) ^ frac.length)
        | _, _ => none

/-- Modelled from the spec: numeric coercion of a string value (spec 4.2
allows numeric strings and rejects non-numeric ones).  Accepts an optional
sign, decimal digits and an optional fractional part. -/
def parseNumString (s : String) : Option ℚ :=
  match s.toList with
  | '-' :: rest => (parseNumTail rest).map (fun q => -q)
  | '+' :: rest => parseNumTail rest
  | rest => parseNumTail rest

/-- Modelled from the spec: coercion of a present JSON value to a number
(spec 4.2: booleans, null and non-numeric strings cannot be coerced). -/
def coerceNum : JsonVal → Option ℚ
  | .num q => some q
  | .str s => parseNumString s
  | .bool _ => none
  | .null => none

/-- The validation error family of spec section 7 (`MissingPayloadError`,
`MissingFeatureError`, `InvalidTypeError`); all map to HTTP 400. -/
inductive ValidationError where
  | missingPayload
  | missingFeature (name : String)
  | invalidType (name : String) (value : JsonVal)
  deriving DecidableEq, Repr

/-- Modelled from the spec: the client-visible message of a validation
error (`str(e)` of the raised `ValueError` in `app.py`). -/
def errMsg : ValidationError → String
  | .missingPayload => "Missing or malformed payload"
  | .missingFeature n => "Missing feature: " ++ n
  | .invalidType n _ => "Invalid type for feature: " ++ n

/-- The parsed request body as seen by `analyze_risk` after
`request.get_json()`: absent/unparseable (Python `None`), a JSON value that
is not an object, or an object given as an association list of key/value
pairs in the order the keys appear. -/
inductive Body where
  | absent
  | nonObject
  | object (kvs : List (String × JsonVal))
  deriving DecidableEq, Repr

/-- The first schema feature (in schema order) that has no entry in the
payload, if any. -/
def firstMissing (schema : List String) (kvs : List (String × JsonVal)) : Option String :=
  schema.find? (fun n => (kvs.lookup n).isNone)

/-- Walk the schema in order, pulling each feature's value from the payload
and coercing it to a number; fails on the first feature whose value does not
coerce. -/
def coerceFeatures : List String → List (String × JsonVal) → Except ValidationError (List ℚ)
  | [], _ => .ok []
  | n :: rest, kvs =>
      match kvs.lookup n with
      | none => .error (.missingFeature n)
      | some v =>
          match coerceNum v with
          | none => .error (.invalidType n v)
          | some q => (coerceFeatures rest kvs).map (fun t => q :: t)

/-- Modelled from the spec: `validate_payload` from the missing
`validation.py` (spec 4.2).  Fails with `MissingPayloadError` when the body
is absent or not a structured object; fails with `MissingFeatureError` on
the first schema feature (in schema order) absent from the payload (spec
section 8: the error names the first missing feature in schema order, for
every payload missing at least one feature); otherwise builds the feature
vector by iterating the schema in order, failing with `InvalidTypeError` on
the first non-coercible value; extra keys are ignored. -/
def validate_payload (schema : List String) : Body → Except ValidationError (List ℚ)
  | .absent => .error .missingPayload
  | .nonObject => .error .missingPayload
  | .object kvs =>
      match firstMissing schema kvs with
      | some n => .error (.missingFeature n)
      | none => coerceFeatures schema kvs

/-- Outcome of the inference call `model.predict_proba(X)[0][1]`: a
probability, a raised `ValueError`, or any other raised exception.  The
classifier itself is a frozen opaque artifact (spec section 1), so a run of
the handler is parametrised by this outcome function. -/
inductive ScoreOutcome where
  | ok (p : ℚ)
  | valueError (msg : String)
  | otherError (msg : String)
  deriving DecidableEq, Repr

/-- The floor of a rational, computed directly from its reduced
numerator/denominator representation (equal to `Int.floor` by
`Rat.floor_eq_div`). -/
def ratFloor (x : ℚ) : ℤ := x.num / (x.den : ℤ)

/-- Round-half-to-even of a rational to an integer (Python's `round`). -/
def roundHalfEven (x : ℚ) : ℤ :=
  if x - (ratFloor x : ℚ) < 1 / 2 then ratFloor x
  else if 1 / 2 < x - (ratFloor x : ℚ) then ratFloor x + 1
  else if ratFloor x % 2 = 0 then ratFloor x else ratFloor x + 1

/-- Python's `round(x, 4)`: round-half-to-even at 4 decimal places. -/
def round4 (x : ℚ) : ℚ := (roundHalfEven (x * 10000) : ℚ) / 10000

/-- A JSON response body of the `analyze-risk` endpoint: either the scoring
result `{"fraud_probability": ..., "flagged": ...}` or `{"error": ...}`. -/
inductive RespBody where
  | result (fraud_probability : ℚ) (flagged : Bool)
  | error (msg : String)
  deriving DecidableEq, Repr

/-- An HTTP response: status code and JSON body. -/
structure Response where
  status : ℕ
  body : RespBody
  deriving DecidableEq, Repr

/-- One dispatched audit write: `threading.Thread(target=log_request,
args=(data, response_data)).start()` carries the parsed request payload and
the response body; `storeOk` is the outcome of the background store write
(never read by the request path). -/
structure AuditDispatch where
  payload : Body
  respBody : RespBody
  storeOk : Bool
  deriving DecidableEq, Repr

/-- Everything observable about one run of the `analyze_risk` handler: the
HTTP response, whether the payload validator ran, whether the inference
call ran, and the audit dispatches that were started. -/
structure RunResult where
  response : Response
  validateCalled : Bool
  inferCalled : Bool
  audits : List AuditDispatch
  deriving DecidableEq, Repr

/-- The part of the `analyze_risk` try-block from `validate_payload` on,
reached with a parsed non-`None` body `b` (`app.py` lines 83-103 with the
`except` clauses of lines 105-111): validate, score, build the response
dict with `round(float(prob), 4)` and `flagged = bool(prob > 0.5)`,
dispatch the audit thread, return 200; a `ValueError` gives 400 with the
exception message, any other exception gives a generic 500. -/
def processData (schema : List String) (score : List ℚ → ScoreOutcome)
    (b : Body) (storeOk : Bool) : RunResult :=
  match validate_payload schema b with
  | .error e =>
      { response := ⟨400, .error (errMsg e)⟩, validateCalled := true,
        inferCalled := false, audits := [] }
  | .ok features =>
      match score features with
      | .valueError msg =>
          { response := ⟨400, .error msg⟩, validateCalled := true,
            inferCalled := true, audits := [] }
      | .otherError _ =>
          { response := ⟨500, .error "Internal server error"⟩, validateCalled := true,
            inferCalled := true, audits := [] }
      | .ok p =>
          let flagged := decide ((1 : ℚ) / 2 < p)
          let responseData : RespBody := .result (round4 p) flagged
          { response := ⟨200, responseData⟩, validateCalled := true,
            inferCalled := true,
            audits := [⟨b, responseData, storeOk⟩] }

/-- The `analyze_risk` handler of `app.py` (lines 71-111).
`require_api_key` and the audit store are modelled from the spec (their
modules are not in the source tree): the access gate aborts with HTTP 401
before any other work when the credential is invalid (spec 4.4, rendered by
the 401 error handler of `app.py`), and the store outcome `storeOk` of the
fire-and-forget `log_request` thread is never read by the handler.  The
handler then checks `model is None` (500), checks the parsed body for
`None` (400 "Invalid JSON"), and otherwise runs validation, inference,
response construction and the audit dispatch. -/
def analyze_risk (schema : List String) (model : Option (List ℚ → ScoreOutcome))
    (apiKeyOk : Bool) (body : Body) (storeOk : Bool) : RunResult :=
  if !apiKeyOk then
    { response := ⟨401, .error "Unauthorized"⟩, validateCalled := false,
      inferCalled := false, audits := [] }
  else
    match model with
    | none =>
        { response := ⟨500, .error "Model not loaded"⟩, validateCalled := false,
          inferCalled := false, audits := [] }
    | some score =>
        match body with
        | .absent =>
            { response := ⟨400, .error "Invalid JSON"⟩, validateCalled := false,
              inferCalled := false, audits := [] }
        | b => processData schema score b storeOk

/-- The process-wide state bound at module initialization of `app.py`: the
loaded model's scoring function and the feature schema. -/
structure ServerState where
  score : List ℚ → ScoreOutcome
  schema : List String

/-- Module initialization of `app.py` (lines 22-34): `joblib.load` of the
model artifact followed by loading the schema; an exception from either
aborts the module import, so the process never starts serving (spec 4.3:
`ModelLoadError` is fatal at startup).  Modelled from the spec for the
artifact sources: `joblib.load` either raises or yields a callable
classifier. -/
def startup (modelSrc : Except String (List ℚ → ScoreOutcome))
    (schemaSrc : Except String (List String)) : Except String ServerState := do
  let m ← modelSrc
  let s ← schemaSrc
  return ⟨m, s⟩

/-- The schema of the spec's concrete scenarios A and B. -/
def cSchema : List String := ["amount", "hour", "merchant_risk"]

/-- The payload of concrete scenario A:
`{"hour": 3, "amount": 250.0, "merchant_risk": 0.9}` (key order as
written). -/
def cPayloadA : List (String × JsonVal) :=
  [("hour", .num 3), ("amount", .num 250), ("merchant_risk", .num (9 / 10))]

/-- The payload of concrete scenario B: scenario A's payload with
`"merchant_risk"` missing. -/
def cPayloadB : List (String × JsonVal) :=
  [("hour", .num 3), ("amount", .num 250)]

/-- The numeric value a payload holds for feature `n` (default 0 when the
feature is absent or non-numeric; only used under a hypothesis that
excludes the default). -/
def featVal (kvs : List (String × JsonVal)) (n : String) : ℚ :=
  ((kvs.lookup n).bind coerceNum).getD 0

/-!  ## Lemmas about rounding -/

theorem ratFloor_eq_floor (x : ℚ) : ratFloor x = ⌊x⌋ := Rat.floor_def.symm

theorem roundHalfEven_intCast (n : ℤ) : roundHalfEven (n : ℚ) = n := by
  simp [roundHalfEven, ratFloor_eq_floor]

theorem round4_7321 : round4 (7321 / 10000 : ℚ) = 7321 / 10000 := by
  have h : (7321 / 10000 : ℚ) * 10000 = ((7321 : ℤ) : ℚ) := by norm_num
  rw [round4, h, roundHalfEven_intCast]
  norm_num

theorem round4_edge : round4 (12501 / 25000 : ℚ) = 1 / 2 := by
  have h : (12501 / 25000 : ℚ) * 10000 = 25002 / 5 := by norm_num
  have hf : ratFloor (25002 / 5 : ℚ) = 5000 := by
    rw [ratFloor_eq_floor]
    rw [Int.floor_eq_iff]
    constructor <;> norm_num
  rw [round4, h, roundHalfEven, hf]
  rw [if_pos (by norm_num)]
  norm_num

/-!  ## Lemmas about the payload validator -/

theorem bind_coerce_eq_featVal {kvs : List (String × JsonVal)} {n : String}
    (h : ((kvs.lookup n).bind coerceNum).isSome = true) :
    (kvs.lookup n).bind coerceNum = some (featVal kvs n) := by
  cases ho : (kvs.lookup n).bind coerceNum with
  | none => rw [ho] at h; simp at h
  | some q => rw [featVal, ho]; rfl

theorem coerceFeatures_eq_map (schema : List String) (kvs : List (String × JsonVal))
    (h : ∀ n ∈ schema, ((kvs.lookup n).bind coerceNum).isSome = true) :
    coerceFeatures schema kvs = .ok (schema.map (featVal kvs)) := by
  induction schema with
  | nil => rfl
  | cons n rest ih =>
      have hn := bind_coerce_eq_featVal (h n (by simp))
      cases hl : kvs.lookup n with
      | none => rw [hl] at hn; simp at hn
      | some v =>
          cases hc : coerceNum v with
          | none => rw [hl] at hn; simp [hc] at hn
          | some q =>
              have hq : q = featVal kvs n := by
                rw [hl] at hn; simp [hc] at hn; exact hn
              have hrest := ih (fun m hm => h m (by simp [hm]))
              simp [coerceFeatures, hl, hc, hrest, Except.map, hq]

theorem firstMissing_eq_none (schema : List String) (kvs : List (String × JsonVal))
    (h : ∀ n ∈ schema, ((kvs.lookup n).bind coerceNum).isSome = true) :
    firstMissing schema kvs = none := by
  rw [firstMissing, List.find?_eq_none]
  intro n hn hcon
  have h2 := h n hn
  rw [Option.isNone_iff_eq_none.mp hcon] at h2
  simp at h2

theorem validate_eq_map (schema : List String) (kvs : List (String × JsonVal))
    (h : ∀ n ∈ schema, ((kvs.lookup n).bind coerceNum).isSome = true) :
    validate_payload schema (.object kvs) = .ok (schema.map (featVal kvs)) := by
  simp [validate_payload, firstMissing_eq_none schema kvs h, coerceFeatures_eq_map schema kvs h]

theorem lookup_eq_of_perm {l₁ l₂ : List (String × JsonVal)} (h : l₁.Perm l₂) :
    ∀ (k : String), (l₁.map Prod.fst).Nodup → l₁.lookup k = l₂.lookup k := by
  induction h with
  | nil => intro k _; rfl
  | cons x h ih =>
      intro k hnd
      obtain ⟨a, b⟩ := x
      simp only [List.lookup_cons]
      cases hk : k == a with
      | true => rfl
      | false =>
          simp only [List.map_cons] at hnd
          exact ih k (List.nodup_cons.mp hnd).2
  | swap x y l =>
      intro k hnd
      obtain ⟨a, b⟩ := x
      obtain ⟨c, d⟩ := y
      simp only [List.map_cons, List.nodup_cons, List.mem_cons] at hnd
      simp only [List.lookup_cons]
      cases hkc : k == c with
      | true =>
          cases hka : k == a with
          | true =>
              exfalso
              exact hnd.1 (Or.inl ((eq_of_beq hka).symm.trans (eq_of_beq hkc)).symm)
          | false => rfl
      | false =>
          cases hka : k == a with
          | true => rfl
          | false => rfl
  | trans h₁ h₂ ih₁ ih₂ =>
      intro k hnd
      rw [ih₁ k hnd, ih₂ k (((h₁.map Prod.fst).nodup_iff).mp hnd)]

theorem lookup_append_extras {extras kvs : List (String × JsonVal)} {schema : List String}
    (hx : ∀ x ∈ extras, x.1 ∉ schema) {n : String} (hn : n ∈ schema) :
    (extras ++ kvs).lookup n = kvs.lookup n := by
  induction extras with
  | nil => rfl
  | cons e t ih =>
      obtain ⟨a, b⟩ := e
      simp only [List.cons_append, List.lookup_cons]
      cases hk : n == a with
      | true =>
          exfalso
          have ha : a ∉ schema := hx (a, b) (by simp)
          exact ha ((eq_of_beq hk) ▸ hn)
      | false => exact ih (fun x hxm => hx x (by simp [hxm]))

/-!  ## Lemmas about the request pipeline -/

theorem run_success (schema : List String) (score : List ℚ → ScoreOutcome)
    (kvs : List (String × JsonVal)) (features : List ℚ) (p : ℚ) (storeOk : Bool)
    (hval : validate_payload schema (.object kvs) = .ok features)
    (hscore : score features = .ok p) :
    analyze_risk schema (some score) true (.object kvs) storeOk =
      ⟨⟨200, .result (round4 p) (decide ((1 : ℚ) / 2 < p))⟩, true, true,
        [⟨.object kvs, .result (round4 p) (decide ((1 : ℚ) / 2 < p)), storeOk⟩]⟩ := by
  simp [analyze_risk, processData, hval, hscore]

theorem run_validation_error (schema : List String) (score : List ℚ → ScoreOutcome)
    (body : Body) (e : ValidationError) (storeOk : Bool)
    (hbody : body ≠ .absent)
    (hval : validate_payload schema body = .error e) :
    analyze_risk schema (some score) true body storeOk =
      ⟨⟨400, .error (errMsg e)⟩, true, false, []⟩ := by
  cases body with
  | absent => exact absurd rfl hbody
  | nonObject => simp [analyze_risk, processData, hval]
  | object kvs => simp [analyze_risk, processData, hval]

theorem run_value_error (schema : List String) (score : List ℚ → ScoreOutcome)
    (kvs : List (String × JsonVal)) (features : List ℚ) (msg : String) (storeOk : Bool)
    (hval : validate_payload schema (.object kvs) = .ok features)
    (hscore : score features = .valueError msg) :
    analyze_risk schema (some score) true (.object kvs) storeOk =
      ⟨⟨400, .error msg⟩, true, true, []⟩ := by
  simp [analyze_risk, processData, hval, hscore]

theorem run_other_error (schema : List String) (score : List ℚ → ScoreOutcome)
    (kvs : List (String × JsonVal)) (features : List ℚ) (msg : String) (storeOk : Bool)
    (hval : validate_payload schema (.object kvs) = .ok features)
    (hscore : score features = .otherError msg) :
    analyze_risk schema (some score) true (.object kvs) storeOk =
      ⟨⟨500, .error "Internal server error"⟩, true, true, []⟩ := by
  simp [analyze_risk, processData, hval, hscore]

theorem response_200_inv (schema : List String) (model : Option (List ℚ → ScoreOutcome))
    (apiKeyOk : Bool) (body : Body) (storeOk : Bool) (r : ℚ) (b : Bool)
    (h : (analyze_risk schema model apiKeyOk body storeOk).response = ⟨200, .result r b⟩) :
    ∃ score features p, model = some score ∧
      validate_payload schema body = .ok features ∧ score features = .ok p ∧
      r = round4 p ∧ b = decide ((1 : ℚ) / 2 < p) ∧
      analyze_risk schema model apiKeyOk body storeOk =
        ⟨⟨200, .result r b⟩, true, true, [⟨body, .result r b, storeOk⟩]⟩ := by
  cases apiKeyOk with
  | false => simp [analyze_risk] at h
  | true =>
      cases model with
      | none => simp [analyze_risk] at h
      | some score =>
          cases body with
          | absent => simp [analyze_risk] at h
          | nonObject =>
              rw [show analyze_risk schema (some score) true .nonObject storeOk =
                    processData schema score .nonObject storeOk from rfl] at h ⊢
              cases hval : validate_payload schema .nonObject with
              | error e => simp [processData, hval] at h
              | ok features =>
                  cases hsc : score features with
                  | valueError msg => simp [processData, hval, hsc] at h
                  | otherError msg => simp [processData, hval, hsc] at h
                  | ok p =>
                      simp [processData, hval, hsc] at h
                      refine ⟨score, features, p, rfl, rfl, hsc, h.1.symm, ?_, ?_⟩
                      · rw [one_div]; exact h.2.symm
                      · simp [processData, hval, hsc, h.1, h.2]
          | object kvs =>
              rw [show analyze_risk schema (some score) true (.object kvs) storeOk =
                    processData schema score (.object kvs) storeOk from rfl] at h ⊢
              cases hval : validate_payload schema (.object kvs) with
              | error e => simp [processData, hval] at h
              | ok features =>
                  cases hsc : score features with
                  | valueError msg => simp [processData, hval, hsc] at h
                  | otherError msg => simp [processData, hval, hsc] at h
                  | ok p =>
                      simp [processData, hval, hsc] at h
                      refine ⟨score, features, p, rfl, rfl, hsc, h.1.symm, ?_, ?_⟩
                      · rw [one_div]; exact h.2.symm
                      · simp [processData, hval, hsc, h.1, h.2]

theorem find?_split {α : Type} {p : α → Bool} :
    ∀ {l : List α} {m : α}, l.find? p = some m →
      ∃ pre post, l = pre ++ m :: post ∧ (∀ x ∈ pre, p x = false) ∧ p m = true := by
  intro l
  induction l with
  | nil => intro m h; simp at h
  | cons a t ih =>
      intro m h
      rw [List.find?_cons] at h
      cases hp : p a with
      | true =>
          rw [hp] at h
          cases h
          exact ⟨[], t, by simp, by simp, hp⟩
      | false =>
          rw [hp] at h
          obtain ⟨pre, post, he, hpre, hm⟩ := ih h
          refine ⟨a :: pre, post, by simp [he], ?_, hm⟩
          intro x hx
          rcases List.mem_cons.mp hx with hx | hx
          · exact hx ▸ hp
          · exact hpre x hx

theorem processData_response_const (schema : List String) (score : List ℚ → ScoreOutcome)
    (b : Body) (storeOk storeOk' : Bool) :
    (processData schema score b storeOk).response =
      (processData schema score b storeOk').response := by
  cases hval : validate_payload schema b with
  | error e => simp [processData, hval]
  | ok features =>
      cases hsc : score features with
      | ok p => simp [processData, hval, hsc]
      | valueError m => simp [processData, hval, hsc]
      | otherError m => simp [processData, hval, hsc]

theorem processData_audits (schema : List String) (score : List ℚ → ScoreOutcome)
    (b : Body) (storeOk : Bool) :
    ((processData schema score b storeOk).response.status ≠ 200 →
      (processData schema score b storeOk).audits = []) ∧
    ((processData schema score b storeOk).response.status = 200 →
      (processData schema score b storeOk).audits =
        [⟨b, (processData schema score b storeOk).response.body, storeOk⟩]) := by
  cases hval : validate_payload schema b with
  | error e => simp [processData, hval]
  | ok features =>
      cases hsc : score features with
      | ok p => simp [processData, hval, hsc]
      | valueError m => simp [processData, hval, hsc]
      | otherError m => simp [processData, hval, hsc]

theorem processData_response_ne_model_missing (schema : List String)
    (score : List ℚ → ScoreOutcome) (b : Body) (storeOk : Bool) :
    (processData schema score b storeOk).response ≠ ⟨500, .error "Model not loaded"⟩ := by
  cases hval : validate_payload schema b with
  | error e => simp [processData, hval]
  | ok features =>
      cases hsc : score features with
      | ok p => simp [processData, hval, hsc]
      | valueError m => simp [processData, hval, hsc]
      | otherError m => simp [processData, hval, hsc]

/-!  ## Claims -/

/-- Claim C1: for every payload that contains every schema-listed feature
with a numeric value, validation produces a feature vector whose length
equals the schema length and whose i-th element is the payload's value for
the i-th schema feature; the vector depends only on the payload's key
bindings — any reordering (permutation) of a duplicate-free payload, and
any extra unrecognized keys, leave it unchanged. -/
theorem validation_vector_matches_schema (schema : List String)
    (kvs : List (String × JsonVal))
    (hnum : ∀ n ∈ schema, ((kvs.lookup n).bind coerceNum).isSome = true) :
    ∃ vec : List ℚ,
      validate_payload schema (.object kvs) = .ok vec ∧
      vec.length = schema.length ∧
      (∀ (i : ℕ) (n : String), schema[i]? = some n →
        (kvs.lookup n).bind coerceNum = some (featVal kvs n) ∧
        vec[i]? = some (featVal kvs n)) ∧
      (∀ kvs₂, (∀ n ∈ schema, kvs₂.lookup n = kvs.lookup n) →
        validate_payload schema (.object kvs₂) = .ok vec) ∧
      (∀ kvs₂, kvs.Perm kvs₂ → (kvs.map Prod.fst).Nodup →
        validate_payload schema (.object kvs₂) = .ok vec) ∧
      (∀ extras, (∀ x ∈ extras, x.1 ∉ schema) →
        validate_payload schema (.object (extras ++ kvs)) = .ok vec) := by
  have key : ∀ kvs₂ : List (String × JsonVal),
      (∀ n ∈ schema, kvs₂.lookup n = kvs.lookup n) →
      validate_payload schema (.object kvs₂) = .ok (schema.map (featVal kvs)) := by
    intro kvs₂ hsame
    have hnum₂ : ∀ n ∈ schema, ((kvs₂.lookup n).bind coerceNum).isSome = true := by
      intro n hn; rw [hsame n hn]; exact hnum n hn
    rw [validate_eq_map schema kvs₂ hnum₂]
    have : schema.map (featVal kvs₂) = schema.map (featVal kvs) :=
      List.map_congr_left (fun n hn => by rw [featVal, featVal, hsame n hn])
    rw [this]
  refine ⟨schema.map (featVal kvs), validate_eq_map schema kvs hnum, by simp, ?_, ?_, ?_, ?_⟩
  · intro i n hi
    have hn : n ∈ schema := List.getElem?_mem hi
    refine ⟨bind_coerce_eq_featVal (hnum n hn), ?_⟩
    rw [List.getElem?_map, hi]
    rfl
  · exact key
  · intro kvs₂ hperm hnd
    exact key kvs₂ (fun n _ => (lookup_eq_of_perm hperm n hnd).symm)
  · intro extras hx
    exact key (extras ++ kvs) (fun n hn => lookup_append_extras hx hn)

/-- Witness for C1: concrete scenario A — schema
`["amount","hour","merchant_risk"]`, payload
`{"hour":3,"amount":250.0,"merchant_risk":0.9}`, vector `[250.0, 3, 0.9]`. -/
theorem validation_vector_matches_schema_witness :
    (∀ n ∈ cSchema, ((cPayloadA.lookup n).bind coerceNum).isSome = true) ∧
    validate_payload cSchema (.object cPayloadA) = .ok [250, 3, 9 / 10] ∧
    (∃ vec : List ℚ,
      validate_payload cSchema (.object cPayloadA) = .ok vec ∧
      vec.length = cSchema.length ∧
      (∀ (i : ℕ) (n : String), cSchema[i]? = some n →
        (cPayloadA.lookup n).bind coerceNum = some (featVal cPayloadA n) ∧
        vec[i]? = some (featVal cPayloadA n)) ∧
      (∀ kvs₂, (∀ n ∈ cSchema, kvs₂.lookup n = cPayloadA.lookup n) →
        validate_payload cSchema (.object kvs₂) = .ok vec) ∧
      (∀ kvs₂, cPayloadA.Perm kvs₂ → (cPayloadA.map Prod.fst).Nodup →
        validate_payload cSchema (.object kvs₂) = .ok vec) ∧
      (∀ extras, (∀ x ∈ extras, x.1 ∉ cSchema) →
        validate_payload cSchema (.object (extras ++ cPayloadA)) = .ok vec)) :=
  ⟨by decide, rfl, validation_vector_matches_schema cSchema cPayloadA (by decide)⟩

/-- Claim C3: a request with an invalid or missing credential is rejected
with HTTP 401 before the payload validator or the inference engine runs,
and no audit write is dispatched. -/
theorem unauthorized_rejected_before_validation (schema : List String)
    (model : Option (List ℚ → ScoreOutcome)) (body : Body) (storeOk : Bool) :
    analyze_risk schema model false body storeOk =
      ⟨⟨401, .error "Unauthorized"⟩, false, false, []⟩ := rfl

/-- Claim C8: the client-facing response of `analyze_risk` is the same
whether the background audit store write succeeds or fails. -/
theorem audit_outcome_does_not_affect_response (schema : List String)
    (model : Option (List ℚ → ScoreOutcome)) (apiKeyOk : Bool) (body : Body)
    (storeOk storeOk' : Bool) :
    (analyze_risk schema model apiKeyOk body storeOk).response =
      (analyze_risk schema model apiKeyOk body storeOk').response := by
  cases apiKeyOk with
  | false => rfl
  | true =>
      cases model with
      | none => rfl
      | some score =>
          cases body with
          | absent => rfl
          | nonObject => exact processData_response_const schema score .nonObject storeOk storeOk'
          | object kvs =>
              exact processData_response_const schema score (.object kvs) storeOk storeOk'

/-- Counterexample for C9: a request body that parses to a non-object JSON
value does reach the payload validator (the validator, not the handler's
`data is None` check, rejects it), contradicting the claim that validation
is not invoked. -/
theorem nonobject_body_invokes_validator :
    (analyze_risk cSchema (some (fun _ => .ok 0)) true .nonObject true).validateCalled = true ∧
    (analyze_risk cSchema (some (fun _ => .ok 0)) true .nonObject true).response =
      ⟨400, .error (errMsg .missingPayload)⟩ :=
  ⟨rfl, rfl⟩

/-- Claim C9 (amended): an authorized request with an absent/unparseable
body is rejected 400 ("Invalid JSON") without invoking validation or
inference; a body that parses to a non-object value is passed to
`validate_payload`, which rejects it with the missing-payload error, also
400, without invoking inference.  In neither case is an audit dispatched. -/
theorem missing_or_nonobject_payload_rejected (schema : List String)
    (score : List ℚ → ScoreOutcome) (storeOk : Bool) :
    analyze_risk schema (some score) true .absent storeOk =
      ⟨⟨400, .error "Invalid JSON"⟩, false, false, []⟩ ∧
    analyze_risk schema (some score) true .nonObject storeOk =
      ⟨⟨400, .error (errMsg .missingPayload)⟩, true, false, []⟩ :=
  ⟨rfl, rfl⟩

/-- Claim C6: when the payload is missing at least one schema feature,
validation fails with a `MissingFeatureError` naming exactly one missing
feature — the first one in schema order (every schema feature before it is
present) — and the endpoint returns HTTP 400 with that error, inference not
invoked and no audit dispatched. -/
theorem missing_feature_names_first_in_schema_order (schema : List String)
    (kvs : List (String × JsonVal)) (score : List ℚ → ScoreOutcome) (storeOk : Bool)
    (n : String) (hn : n ∈ schema) (hmiss : kvs.lookup n = none) :
    ∃ m pre post,
      validate_payload schema (.object kvs) = .error (.missingFeature m) ∧
      schema = pre ++ m :: post ∧
      kvs.lookup m = none ∧
      (∀ k ∈ pre, (kvs.lookup k).isSome = true) ∧
      analyze_risk schema (some score) true (.object kvs) storeOk =
        ⟨⟨400, .error (errMsg (.missingFeature m))⟩, true, false, []⟩ := by
  have hfind : (firstMissing schema kvs).isSome = true := by
    rw [firstMissing, List.find?_isSome]
    exact ⟨n, hn, by simp [hmiss]⟩
  obtain ⟨m, hm⟩ := Option.isSome_iff_exists.mp hfind
  have hm' : schema.find? (fun k => (kvs.lookup k).isNone) = some m := hm
  obtain ⟨pre, post, he, hpre, hpm⟩ := find?_split hm'
  have hval : validate_payload schema (.object kvs) = .error (.missingFeature m) := by
    simp [validate_payload, hm]
  refine ⟨m, pre, post, hval, he, ?_, ?_, ?_⟩
  · exact Option.isNone_iff_eq_none.mp hpm
  · intro k hk
    have h := hpre k hk
    cases ho : kvs.lookup k with
    | none => rw [ho] at h; simp at h
    | some v => rfl
  · exact run_validation_error schema score (.object kvs) (.missingFeature m) storeOk
      (by simp) hval

/-- Witness for C6: concrete scenario B — the payload missing
`"merchant_risk"` fails with `MissingFeatureError("merchant_risk")` and
HTTP 400. -/
theorem missing_feature_names_first_witness :
    ("merchant_risk" ∈ cSchema) ∧
    cPayloadB.lookup "merchant_risk" = none ∧
    validate_payload cSchema (.object cPayloadB) =
      .error (.missingFeature "merchant_risk") ∧
    (∃ m pre post,
      validate_payload cSchema (.object cPayloadB) = .error (.missingFeature m) ∧
      cSchema = pre ++ m :: post ∧
      cPayloadB.lookup m = none ∧
      (∀ k ∈ pre, (cPayloadB.lookup k).isSome = true) ∧
      analyze_risk cSchema (some (fun _ => .ok 0)) true (.object cPayloadB) true =
        ⟨⟨400, .error (errMsg (.missingFeature m))⟩, true, false, []⟩) :=
  ⟨by decide, rfl, rfl,
    missing_feature_names_first_in_schema_order cSchema cPayloadB (fun _ => .ok 0) true
      "merchant_risk" (by decide) rfl⟩

/-- Claim C5: an authorized request whose payload validates, when scoring
succeeds with probability `p`, gets HTTP 200 with body
`{"fraud_probability": round4 p, "flagged": p > 0.5}`. -/
theorem valid_request_returns_rounded_result (schema : List String)
    (score : List ℚ → ScoreOutcome) (kvs : List (String × JsonVal))
    (features : List ℚ) (p : ℚ) (storeOk : Bool)
    (hval : validate_payload schema (.object kvs) = .ok features)
    (hscore : score features = .ok p) :
    (analyze_risk schema (some score) true (.object kvs) storeOk).response =
      ⟨200, .result (round4 p) (decide ((1 : ℚ) / 2 < p))⟩ := by
  rw [run_success schema score kvs features p storeOk hval hscore]

/-- Witness for C5: concrete scenario C — the model returns probability
0.7321, so the response is 200 with body
`{"fraud_probability": 0.7321, "flagged": true}`. -/
theorem valid_request_returns_rounded_result_witness :
    validate_payload cSchema (.object cPayloadA) = .ok [250, 3, 9 / 10] ∧
    (fun _ : List ℚ => ScoreOutcome.ok (7321 / 10000 : ℚ)) [250, 3, 9 / 10] =
      ScoreOutcome.ok (7321 / 10000 : ℚ) ∧
    (analyze_risk cSchema (some (fun _ => .ok (7321 / 10000))) true
        (.object cPayloadA) true).response = ⟨200, .result (7321 / 10000) true⟩ := by
  refine ⟨rfl, rfl, ?_⟩
  have h := valid_request_returns_rounded_result cSchema (fun _ => .ok (7321 / 10000))
    cPayloadA [250, 3, 9 / 10] (7321 / 10000) true rfl rfl
  have hd : decide ((1 : ℚ) / 2 < 7321 / 10000) = true := by
    rw [decide_eq_true_eq]; norm_num
  rw [h, round4_7321, hd]

/-- Counterexample for C4: when the inference call raises a `ValueError`,
the handler's `except ValueError` clause answers HTTP 400 with the
exception's message — not the claimed generic HTTP 500. -/
theorem scoring_valueerror_answers_400_with_message :
    (analyze_risk cSchema (some (fun _ => .valueError "x contains NaN")) true
        (.object cPayloadA) true).inferCalled = true ∧
    (analyze_risk cSchema (some (fun _ => .valueError "x contains NaN")) true
        (.object cPayloadA) true).response = ⟨400, .error "x contains NaN"⟩ :=
  ⟨rfl, rfl⟩

/-- Claim C4 (amended): if the inference call fails with an exception other
than `ValueError`, the response is HTTP 500 with the generic
internal-error body (the failure message is not included); if it fails
with a `ValueError`, the handler returns HTTP 400 carrying the exception's
message. -/
theorem scoring_failure_responses (schema : List String)
    (score : List ℚ → ScoreOutcome) (kvs : List (String × JsonVal))
    (features : List ℚ) (msg : String) (storeOk : Bool)
    (hval : validate_payload schema (.object kvs) = .ok features) :
    (score features = .otherError msg →
      (analyze_risk schema (some score) true (.object kvs) storeOk).response =
        ⟨500, .error "Internal server error"⟩) ∧
    (score features = .valueError msg →
      (analyze_risk schema (some score) true (.object kvs) storeOk).response =
        ⟨400, .error msg⟩) := by
  constructor
  · intro hsc; rw [run_other_error schema score kvs features msg storeOk hval hsc]
  · intro hsc; rw [run_value_error schema score kvs features msg storeOk hval hsc]

/-- Witness for C4 (amended), at a scoring failure that is not a
`ValueError`: the response is the generic 500. -/
theorem scoring_failure_responses_witness :
    validate_payload cSchema (.object cPayloadA) = .ok [250, 3, 9 / 10] ∧
    (fun _ : List ℚ => ScoreOutcome.otherError "db connection lost") [250, 3, 9 / 10] =
      ScoreOutcome.otherError "db connection lost" ∧
    (analyze_risk cSchema (some (fun _ => .otherError "db connection lost")) true
        (.object cPayloadA) true).response = ⟨500, .error "Internal server error"⟩ :=
  ⟨rfl, rfl,
    (scoring_failure_responses cSchema (fun _ => .otherError "db connection lost")
      cPayloadA [250, 3, 9 / 10] "db connection lost" true rfl).1 rfl⟩

/-- Counterexample for C2: with raw model probability 0.50004 the response
is 200 with rounded probability 0.5 and `flagged = true`, yet
`0.5 > 0.5` is false — `flagged` does not equal (rounded probability >
0.5). -/
theorem flagged_vs_rounded_probability_counterexample :
    (analyze_risk cSchema (some (fun _ => .ok (12501 / 25000))) true
        (.object cPayloadA) true).response = ⟨200, .result (1 / 2) true⟩ ∧
    ¬((1 : ℚ) / 2 > 1 / 2) := by
  constructor
  · have h := run_success cSchema (fun _ => .ok (12501 / 25000)) cPayloadA
      [250, 3, 9 / 10] (12501 / 25000) true rfl rfl
    have hd : decide ((1 : ℚ) / 2 < 12501 / 25000) = true := by
      rw [decide_eq_true_eq]; norm_num
    rw [h]
    simp [round4_edge, hd]
    norm_num
  · exact lt_irrefl _

/-- Claim C2 (amended): in every 200 response, `flagged` equals
(raw probability > 0.5) for the unrounded model probability `p`, and the
reported `fraud_probability` is `p` rounded to 4 decimals; `flagged` is
derived from the raw value, not from the rounded one. -/
theorem flagged_matches_raw_probability (schema : List String)
    (model : Option (List ℚ → ScoreOutcome)) (apiKeyOk : Bool) (body : Body)
    (storeOk : Bool) (r : ℚ) (b : Bool)
    (h : (analyze_risk schema model apiKeyOk body storeOk).response =
      ⟨200, .result r b⟩) :
    ∃ score features p, model = some score ∧ score features = .ok p ∧
      b = decide ((1 : ℚ) / 2 < p) ∧ r = round4 p := by
  obtain ⟨score, features, p, hm, hval, hsc, hr, hb, _⟩ :=
    response_200_inv schema model apiKeyOk body storeOk r b h
  exact ⟨score, features, p, hm, hsc, hb, hr⟩

/-- Witness for C2 (amended) at a concrete 200 response. -/
theorem flagged_matches_raw_probability_witness :
    (analyze_risk cSchema (some (fun _ => .ok (7321 / 10000))) true
        (.object cPayloadA) true).response = ⟨200, .result (7321 / 10000) true⟩ ∧
    (∃ score features p,
      some (fun _ : List ℚ => ScoreOutcome.ok (7321 / 10000 : ℚ)) = some score ∧
      score features = .ok p ∧
      true = decide ((1 : ℚ) / 2 < p) ∧ (7321 / 10000 : ℚ) = round4 p) := by
  have h := run_success cSchema (fun _ => .ok (7321 / 10000)) cPayloadA
    [250, 3, 9 / 10] (7321 / 10000) true rfl rfl
  have hd : decide ((1 : ℚ) / 2 < 7321 / 10000) = true := by
    rw [decide_eq_true_eq]; norm_num
  have hresp : (analyze_risk cSchema (some (fun _ => .ok (7321 / 10000))) true
      (.object cPayloadA) true).response = ⟨200, .result (7321 / 10000) true⟩ := by
    rw [h, round4_7321, hd]
  exact ⟨hresp, flagged_matches_raw_probability cSchema
    (some (fun _ => .ok (7321 / 10000))) true (.object cPayloadA) true
    (7321 / 10000) true hresp⟩

/-- Claim C7: audit dispatch happens only after a scoring result exists:
every rejected request (401, 400 or 500) dispatches no audit write, and
every 200 response dispatches exactly one, carrying the request payload and
the exact response body. -/
theorem audit_dispatched_only_after_success (schema : List String)
    (model : Option (List ℚ → ScoreOutcome)) (apiKeyOk : Bool) (body : Body)
    (storeOk : Bool) :
    ((analyze_risk schema model apiKeyOk body storeOk).response.status ≠ 200 →
      (analyze_risk schema model apiKeyOk body storeOk).audits = []) ∧
    ((analyze_risk schema model apiKeyOk body storeOk).response.status = 200 →
      (analyze_risk schema model apiKeyOk body storeOk).audits =
        [⟨body, (analyze_risk schema model apiKeyOk body storeOk).response.body,
          storeOk⟩]) := by
  cases apiKeyOk with
  | false => exact ⟨fun _ => rfl, fun h => by simp [analyze_risk] at h⟩
  | true =>
      cases model with
      | none => exact ⟨fun _ => rfl, fun h => by simp [analyze_risk] at h⟩
      | some score =>
          cases body with
          | absent => exact ⟨fun _ => rfl, fun h => by simp [analyze_risk] at h⟩
          | nonObject => exact processData_audits schema score .nonObject storeOk
          | object kvs => exact processData_audits schema score (.object kvs) storeOk

/-- Witness for C7: a successful run dispatches exactly one audit with the
payload and the response body; an unauthorized run dispatches none. -/
theorem audit_dispatched_only_after_success_witness :
    (analyze_risk cSchema (some (fun _ => .ok (7321 / 10000))) true
        (.object cPayloadA) true).audits =
      [⟨.object cPayloadA,
        (analyze_risk cSchema (some (fun _ => .ok (7321 / 10000))) true
          (.object cPayloadA) true).response.body, true⟩] ∧
    (analyze_risk cSchema (some (fun _ => .ok (7321 / 10000))) false
        (.object cPayloadA) true).audits = [] := by
  constructor
  · refine (audit_dispatched_only_after_success cSchema
      (some (fun _ => .ok (7321 / 10000))) true (.object cPayloadA) true).2 ?_
    have h := run_success cSchema (fun _ => .ok (7321 / 10000)) cPayloadA
      [250, 3, 9 / 10] (7321 / 10000) true rfl rfl
    rw [h]
  · exact (audit_dispatched_only_after_success cSchema
      (some (fun _ => .ok (7321 / 10000))) false (.object cPayloadA) true).1
      (by decide)

/-- Claim C10: startup either fails (the process never serves) or binds a
loaded model, and in the latter case the "Model not loaded" 500 branch of
`analyze_risk` is unreachable for every request served. -/
theorem model_not_loaded_branch_unreachable
    (modelSrc : Except String (List ℚ → ScoreOutcome))
    (schemaSrc : Except String (List String)) :
    (∃ e, startup modelSrc schemaSrc = .error e) ∨
    (∃ st, startup modelSrc schemaSrc = .ok st ∧
      ∀ (apiKeyOk : Bool) (body : Body) (storeOk : Bool),
        (analyze_risk st.schema (some st.score) apiKeyOk body storeOk).response ≠
          ⟨500, .error "Model not loaded"⟩) := by
  cases modelSrc with
  | error e => exact Or.inl ⟨e, rfl⟩
  | ok m =>
      cases schemaSrc with
      | error e => exact Or.inl ⟨e, rfl⟩
      | ok s =>
          refine Or.inr ⟨⟨m, s⟩, rfl, ?_⟩
          intro apiKeyOk body storeOk
          cases apiKeyOk with
          | false => simp [analyze_risk]
          | true =>
              cases body with
              | absent => simp [analyze_risk]
              | nonObject => exact processData_response_ne_model_missing s m .nonObject storeOk
              | object kvs =>
                  exact processData_response_ne_model_missing s m (.object kvs) storeOk

end MerchantShield
